import Mathlib

/-!
Shallow embedding of the `shinobi` custom component's entity reconciliation
core (`custom_components/shinobi/core/managers/entity_manager.py`) and of the
coordinator base class
(`custom_components/shinobi/core/managers/home_assistant.py`).

Python dictionaries are modelled as insertion-ordered association lists with
CPython semantics: assignment to an existing key keeps its position,
assignment to a fresh key appends, `del` removes the entry, and mutating the
set of keys while iterating raises `RuntimeError` at the next iteration step.
-/

/-- First-match lookup in an insertion-ordered dictionary (`d.get(k)`). -/
def lookupD {α : Type} : List (String × α) → String → Option α
  | [], _ => none
  | (k, v) :: rest, key => if k = key then some v else lookupD rest key

/-- `d[k] = v` on a CPython dict: existing key keeps its position, a fresh
key is appended at the end. -/
def dictSet {α : Type} : List (String × α) → String → α → List (String × α)
  | [], key, v => [(key, v)]
  | (k, w) :: rest, key, v =>
      if k = key then (k, v) :: rest else (k, w) :: dictSet rest key v

/-- `del d[k]` on a CPython dict (keys are unique, so removing the first
occurrence is exact). -/
def dictDel {α : Type} : List (String × α) → String → List (String × α)
  | [], _ => []
  | (k, w) :: rest, key => if k = key then rest else (k, w) :: dictDel rest key

/-- Python `dict` equality: same key set and same value at every key,
regardless of insertion order. -/
def dictEq {α : Type} [DecidableEq α] (a b : List (String × α)) : Bool :=
  a.all (fun kv => lookupD b kv.1 = lookupD a kv.1) &&
    b.all (fun kv => lookupD a kv.1 = lookupD b kv.1)

/-- Attribute dictionaries (`attributes` / `details`), values already
stringly typed for the purposes of comparison. -/
abbrev Attrs : Type := List (String × String)

/-- Modelled from the spec: the integration's domain constant (the spec's
"plugin" identifier); `common/consts.py` is not under `src/`. Its concrete
text is irrelevant to the claims. -/
def DOMAIN : String := "shinobi"

/-- Modelled from the spec: lifecycle states of an entity record — the spec's
"marks entities CREATED / UPDATED / READY / DELETED"; `core/helpers/enums.py`
is not under `src/`. -/
inductive EntityStatus
  | created
  | updated
  | ready
  | deleted
deriving DecidableEq, Repr

/-- The host platform's `EntityDescription`: a value object whose `key` is
the entity's unique identifier; equality is field-wise. -/
structure EntityDescription where
  key : String
  name : String
deriving DecidableEq, Repr

/-- Modelled from the spec: the entity record held in the manager's mapping
(the spec's "mapping from unique identifiers to entity records" with
state/attributes/details and a status mark); `core/models/entity_data.py` is
not under `src/`. Field defaults are the constructor
`EntityData(entry_id, entity_description)`. -/
structure EntityData where
  entry_id : String
  entity_description : EntityDescription
  status : EntityStatus := EntityStatus.created
  domain : String := ""
  state : Option String := none
  attributes : Attrs := []
  device_name : Option String := none
  details : Option Attrs := none
  disabled : Bool := false
deriving DecidableEq, Repr

/-- Modelled from the spec: the record's unique identifier is the entity
description's key. -/
def EntityData.id (e : EntityData) : String :=
  e.entity_description.key

/-- Modelled from the spec: the record's display name comes from its
description. -/
def EntityData.displayName (e : EntityData) : String :=
  e.entity_description.name

namespace EntityManager

/-- The manager's `entities` mapping: unique identifier → entity record. -/
abbrev Entities : Type := List (String × EntityData)

/-- `EntityManager._compare_data`: field-by-field comparison of a record
against new values; the Python builds a list of difference messages and
returns `len(msgs) > 0`, which is exactly this disjunction.
`entity_description` and `details` are only compared when not `None`.
Dictionary comparisons use Python dict equality (`dictEq`). -/
def compare_data (entity : EntityData) (state : String) (attributes : Attrs)
    (device_name : String) (entity_description : Option EntityDescription := none)
    (details : Option Attrs := none) : Bool :=
  (entity.state != some state) ||
  (!dictEq entity.attributes attributes) ||
  (entity.device_name != some device_name) ||
  (match entity_description with
   | some d => entity.entity_description != d
   | none => false) ||
  (match details with
   | some d =>
       match entity.details with
       | some ed => !dictEq ed d
       | none => true
   | none => false)

/-- `EntityManager.get`. -/
def get (entities : Entities) (unique_id : String) : Option EntityData :=
  lookupD entities unique_id

/-- `destructors is not None and True in destructors`. -/
def destructorRequested : Option (List Bool) → Bool
  | none => false
  | some l => l.contains true

/-- The record `EntityManager.set_entity` ends up storing under
`entity_description.key`, or `none` when the call stores nothing (a fresh
record dropped by a destructor flag). Mirrors the body of `set_entity` up to
the final dictionary write. -/
def set_entity_record (entities : Entities) (domain : String) (entry_id : String)
    (state : String) (attributes : Attrs) (device_name : String)
    (entity_description : EntityDescription) (details : Option Attrs)
    (destructors : Option (List Bool)) : Option EntityData :=
  let entity : EntityData :=
    match lookupD entities entity_description.key with
    | none =>
        -- fresh record; the `_compare_data` call here only produces log text
        { entry_id := entry_id
          entity_description := entity_description
          status := EntityStatus.created
          domain := domain }
    | some e =>
        let was_modified :=
          compare_data e state attributes device_name (some entity_description) details
        if was_modified then { e with status := EntityStatus.updated } else e
  let entity :=
    if entity.status = EntityStatus.created ∨ entity.status = EntityStatus.updated then
      { entity with
          state := some state
          attributes := attributes
          device_name := some device_name
          details := details }
    else entity
  if destructorRequested destructors then
    if entity.status = EntityStatus.created then none
    else some { entity with status := EntityStatus.deleted }
  else some entity

/-- `EntityManager.set_entity`: compute the record and, unless it was
dropped, write it back under `entity_description.key`. -/
def set_entity (entities : Entities) (domain : String) (entry_id : String)
    (state : String) (attributes : Attrs) (device_name : String)
    (entity_description : EntityDescription) (details : Option Attrs := none)
    (destructors : Option (List Bool) := none) : Entities :=
  match set_entity_record entities domain entry_id state attributes device_name
      entity_description details destructors with
  | none => entities
  | some e => dictSet entities entity_description.key e

end EntityManager

theorem lookupD_dictSet_self {α : Type} (m : List (String × α)) (k : String) (v : α) :
    lookupD (dictSet m k v) k = some v := by
  induction m with
  | nil => simp [dictSet, lookupD]
  | cons kv rest ih =>
      by_cases h : kv.1 = k
      · simp [dictSet, lookupD, h]
      · simp [dictSet, lookupD, h, ih]

theorem lookupD_dictSet_ne {α : Type} (m : List (String × α)) (k k' : String) (v : α)
    (h : k' ≠ k) : lookupD (dictSet m k v) k' = lookupD m k' := by
  induction m with
  | nil => simp [dictSet, lookupD, Ne.symm h]
  | cons kv rest ih =>
      obtain ⟨a, w⟩ := kv
      by_cases hk : a = k
      · subst hk
        simp [dictSet, lookupD, Ne.symm h]
      · by_cases hk' : a = k'
        · simp [dictSet, lookupD, hk, hk', h]
        · simp [dictSet, lookupD, hk, hk', ih]

/-- C1 counterexample: the claim quantifies over every call to `set_entity`,
but when the `destructors` list contains `True` and a differing record
already exists, the stored record's status ends up DELETED, not UPDATED. -/
theorem set_entity_status_claim_cex :
    EntityManager.compare_data
        { entry_id := "entry1", entity_description := ⟨"mon1", "Monitor 1"⟩,
          status := EntityStatus.ready, domain := "camera",
          state := some "off", attributes := [], device_name := some "dev" }
        "on" [] "dev" (some ⟨"mon1", "Monitor 1"⟩) none = true ∧
    (EntityManager.get
        (EntityManager.set_entity
          [("mon1",
            { entry_id := "entry1", entity_description := ⟨"mon1", "Monitor 1"⟩,
              status := EntityStatus.ready, domain := "camera",
              state := some "off", attributes := [], device_name := some "dev" })]
          "camera" "entry1" "on" [] "dev" ⟨"mon1", "Monitor 1"⟩ none (some [true]))
        "mon1").map EntityData.status = some EntityStatus.deleted ∧
    some EntityStatus.deleted ≠ some EntityStatus.updated := by
  refine ⟨by decide, by decide, by decide⟩

/-- C1 (amended): for calls whose `destructors` list contains no `True`,
`set_entity` stores a CREATED record when none exists under the
description's key, marks an existing record UPDATED exactly when
`_compare_data` reports a difference, and otherwise leaves its status
unchanged. -/
theorem set_entity_status_spec (m : EntityManager.Entities)
    (domain entry_id state : String) (attributes : Attrs) (device_name : String)
    (d : EntityDescription) (details : Option Attrs) (destructors : Option (List Bool))
    (hd : EntityManager.destructorRequested destructors = false) :
    (lookupD m d.key = none →
      ∃ r, EntityManager.get
          (EntityManager.set_entity m domain entry_id state attributes device_name
            d details destructors) d.key = some r ∧
        r.status = EntityStatus.created) ∧
    (∀ e, lookupD m d.key = some e →
      EntityManager.compare_data e state attributes device_name (some d) details = true →
      ∃ r, EntityManager.get
          (EntityManager.set_entity m domain entry_id state attributes device_name
            d details destructors) d.key = some r ∧
        r.status = EntityStatus.updated) ∧
    (∀ e, lookupD m d.key = some e →
      EntityManager.compare_data e state attributes device_name (some d) details = false →
      ∃ r, EntityManager.get
          (EntityManager.set_entity m domain entry_id state attributes device_name
            d details destructors) d.key = some r ∧
        r.status = e.status) := by
  refine ⟨?_, ?_, ?_⟩
  · intro hnone
    refine ⟨{ entry_id := entry_id, entity_description := d,
              status := EntityStatus.created, domain := domain,
              state := some state, attributes := attributes,
              device_name := some device_name, details := details }, ?_, rfl⟩
    simp [EntityManager.set_entity, EntityManager.set_entity_record, EntityManager.get,
      hnone, hd, lookupD_dictSet_self]
  · intro e he hcmp
    refine ⟨{ e with
                status := EntityStatus.updated
                state := some state
                attributes := attributes
                device_name := some device_name
                details := details }, ?_, rfl⟩
    simp [EntityManager.set_entity, EntityManager.set_entity_record, EntityManager.get,
      he, hcmp, hd, lookupD_dictSet_self]
  · intro e he hcmp
    by_cases hs : e.status = EntityStatus.created ∨ e.status = EntityStatus.updated
    · refine ⟨{ e with
                  status := e.status
                  state := some state
                  attributes := attributes
                  device_name := some device_name
                  details := details }, ?_, rfl⟩
      simp [EntityManager.set_entity, EntityManager.set_entity_record, EntityManager.get,
        he, hcmp, hd, hs, lookupD_dictSet_self]
    · refine ⟨e, ?_, rfl⟩
      simp [EntityManager.set_entity, EntityManager.set_entity_record, EntityManager.get,
        he, hcmp, hd, hs, lookupD_dictSet_self]

/-- Witness for `set_entity_status_spec` at a concrete call: a fresh record
is stored with status CREATED. -/
theorem set_entity_status_spec_witness :
    ∃ r, EntityManager.get
        (EntityManager.set_entity [] "camera" "entry1" "on" [] "dev"
          ⟨"mon1", "Monitor 1"⟩ none none) "mon1" = some r ∧
      r.status = EntityStatus.created := by
  exact (set_entity_status_spec [] "camera" "entry1" "on" [] "dev"
    ⟨"mon1", "Monitor 1"⟩ none none rfl).1 rfl

/-- C5: whenever `set_entity` stores a record (it was not dropped by a
destructor flag), a subsequent `get` with the entity description's key
returns exactly that record. -/
theorem set_entity_get_roundtrip (m : EntityManager.Entities)
    (domain entry_id state : String) (attributes : Attrs) (device_name : String)
    (d : EntityDescription) (details : Option Attrs) (destructors : Option (List Bool))
    (r : EntityData)
    (h : EntityManager.set_entity_record m domain entry_id state attributes device_name
        d details destructors = some r) :
    EntityManager.get
        (EntityManager.set_entity m domain entry_id state attributes device_name
          d details destructors) d.key = some r := by
  simp [EntityManager.set_entity, EntityManager.get, h, lookupD_dictSet_self]

/-- Witness for `set_entity_get_roundtrip` at a concrete call. -/
theorem set_entity_get_roundtrip_witness :
    EntityManager.get
        (EntityManager.set_entity [] "select" "entry2" "mode1" [("opt", "a")] "cam"
          ⟨"sel1", "Selector 1"⟩ none none) "sel1"
      = some { entry_id := "entry2", entity_description := ⟨"sel1", "Selector 1"⟩,
               status := EntityStatus.created, domain := "select",
               state := some "mode1", attributes := [("opt", "a")],
               device_name := some "cam", details := none } := by
  exact set_entity_get_roundtrip [] "select" "entry2" "mode1" [("opt", "a")] "cam"
    ⟨"sel1", "Selector 1"⟩ none none _ (by decide)

/-- C8: a call to `set_entity` for a key with no existing record, with a
destructors list containing `True`, stores nothing: the entities mapping is
returned unchanged. -/
theorem set_entity_fresh_destructor_frame (m : EntityManager.Entities)
    (domain entry_id state : String) (attributes : Attrs) (device_name : String)
    (d : EntityDescription) (details : Option Attrs) (destructors : Option (List Bool))
    (h1 : lookupD m d.key = none)
    (h2 : EntityManager.destructorRequested destructors = true) :
    EntityManager.set_entity m domain entry_id state attributes device_name
      d details destructors = m := by
  simp [EntityManager.set_entity, EntityManager.set_entity_record, h1, h2]

/-- Witness for `set_entity_fresh_destructor_frame` at a concrete call. -/
theorem set_entity_fresh_destructor_frame_witness :
    EntityManager.set_entity
        [("other", { entry_id := "entry3", entity_description := ⟨"other", "Other"⟩ })]
        "camera" "entry3" "on" [] "dev" ⟨"mon2", "Monitor 2"⟩ none (some [false, true])
      = [("other", { entry_id := "entry3", entity_description := ⟨"other", "Other"⟩ })] := by
  exact set_entity_fresh_destructor_frame _ "camera" "entry3" "on" [] "dev"
    ⟨"mon2", "Monitor 2"⟩ none (some [false, true]) (by decide) (by decide)

/-- C9: when an existing record's diff reports no modification and its
status is neither CREATED nor UPDATED, `set_entity` leaves its state,
attributes, device_name and details untouched (the new values are written
only into CREATED or UPDATED records). -/
theorem set_entity_unmodified_frame (m : EntityManager.Entities)
    (domain entry_id state : String) (attributes : Attrs) (device_name : String)
    (d : EntityDescription) (details : Option Attrs) (destructors : Option (List Bool))
    (e : EntityData)
    (h1 : lookupD m d.key = some e)
    (h2 : EntityManager.compare_data e state attributes device_name (some d) details = false)
    (h3 : e.status ≠ EntityStatus.created)
    (h4 : e.status ≠ EntityStatus.updated) :
    ∃ r, EntityManager.get
        (EntityManager.set_entity m domain entry_id state attributes device_name
          d details destructors) d.key = some r ∧
      r.state = e.state ∧ r.attributes = e.attributes ∧
      r.device_name = e.device_name ∧ r.details = e.details := by
  cases hdes : EntityManager.destructorRequested destructors
  · refine ⟨e, ?_, rfl, rfl, rfl, rfl⟩
    simp [EntityManager.set_entity, EntityManager.set_entity_record, EntityManager.get,
      h1, h2, h3, h4, hdes, lookupD_dictSet_self]
  · refine ⟨{ e with status := EntityStatus.deleted }, ?_, rfl, rfl, rfl, rfl⟩
    simp [EntityManager.set_entity, EntityManager.set_entity_record, EntityManager.get,
      h1, h2, h3, h4, hdes, lookupD_dictSet_self]

/-- Witness for `set_entity_unmodified_frame` at a concrete call on a READY
record with identical values. -/
theorem set_entity_unmodified_frame_witness :
    ∃ r, EntityManager.get
        (EntityManager.set_entity
          [("mon3",
            { entry_id := "entry4", entity_description := ⟨"mon3", "Monitor 3"⟩,
              status := EntityStatus.ready, domain := "camera",
              state := some "on", attributes := [("fps", "30")],
              device_name := some "dev", details := some [] })]
          "camera" "entry4" "on" [("fps", "30")] "dev" ⟨"mon3", "Monitor 3"⟩
          (some []) none) "mon3" = some r ∧
      r.state = some "on" ∧ r.attributes = [("fps", "30")] ∧
      r.device_name = some "dev" ∧ r.details = some ([] : Attrs) := by
  exact set_entity_unmodified_frame
    [("mon3",
      { entry_id := "entry4", entity_description := ⟨"mon3", "Monitor 3"⟩,
        status := EntityStatus.ready, domain := "camera",
        state := some "on", attributes := [("fps", "30")],
        device_name := some "dev", details := some [] })]
    "camera" "entry4" "on" [("fps", "30")] "dev" ⟨"mon3", "Monitor 3"⟩ (some []) none
    { entry_id := "entry4", entity_description := ⟨"mon3", "Monitor 3"⟩,
      status := EntityStatus.ready, domain := "camera",
      state := some "on", attributes := [("fps", "30")],
      device_name := some "dev", details := some [] }
    (by decide) (by decide) (by decide) (by decide)

/-- A handle returned by the host's `async_track_time_interval`: which
callback was registered and at which interval (a `timedelta`, modelled as a
number of time units). Its only use in the manager is to be recorded and
later invoked to cancel the subscription. -/
inductive TrackHandler
  | update (interval : Nat)
  | heartbeat (interval : Nat)
deriving DecidableEq, Repr

/-- The host platform's config-entry record; only its presence matters to
the embedded code paths. -/
structure ConfigEntry where
  entry_id : String
deriving DecidableEq, Repr

/-- The mutable fields of `HomeAssistantManager` that the embedded methods
read or write (`__init__`, home_assistant.py:29-62). `scan_interval` and
`heartbeat_interval` are the constructor arguments; `entities` is the child
`EntityManager`'s mapping. -/
structure HomeAssistantManager where
  is_initialized : Bool := false
  is_updating : Bool := false
  update_lock : Bool := false
  scan_interval : Nat
  heartbeat_interval : Option Nat := none
  track_time_handlers : List TrackHandler := []
  actions : List (String × String) := []
  entry : Option ConfigEntry := none
  entities : EntityManager.Entities := []
deriving DecidableEq, Repr

namespace HomeAssistantManager

/-- `HomeAssistantManager.async_update_entry`: with a config entry it just
records the entry; without one it subscribes the update cycle at the scan
interval and, when a heartbeat interval was supplied at construction, also
the heartbeat sender, appending each returned handle to
`_async_track_time_handlers`. (`async_initialize_data_providers` is a `pass`
stub in this class.) -/
def async_update_entry (s : HomeAssistantManager) (entry : Option ConfigEntry) :
    HomeAssistantManager :=
  match entry with
  | some e => { s with entry := some e }
  | none =>
      let s1 := { s with track_time_handlers :=
        s.track_time_handlers ++ [TrackHandler.update s.scan_interval] }
      match s.heartbeat_interval with
      | some hb =>
          { s1 with track_time_handlers :=
            s1.track_time_handlers ++ [TrackHandler.heartbeat hb] }
      | none => s1

/-- `HomeAssistantManager.update` (home_assistant.py:218-231): bails out when
the update lock is held, otherwise loads devices and entities, schedules the
entity manager's reconciliation and the dispatch task, and releases the
lock. The returned trace lists the operations invoked. -/
def update (s : HomeAssistantManager) : HomeAssistantManager × List String :=
  if s.update_lock then (s, [])
  else
    ({ s with update_lock := false },
     ["load_devices", "load_entities", "entity_manager.update", "dispatch_all"])

/-- `HomeAssistantManager.async_update` (home_assistant.py:233-256): returns
at once while not initialized; returns (leaving `_is_updating` as found)
when an update is already running; otherwise marks updating, refreshes the
data providers, runs `update`, and clears the updating flag. The trace
lists the operations invoked. -/
def async_update (s : HomeAssistantManager) : HomeAssistantManager × List String :=
  if s.is_initialized = false then (s, [])
  else if s.is_updating then (s, [])
  else
    let s1 := { s with is_updating := true }
    let r := update s1
    ({ r.1 with is_updating := false }, "async_update_data_providers" :: r.2)

/-- `HomeAssistantManager.set_action`: the action is stored under the key
`f"{entity_id}:{action_name}"`. -/
def set_action (s : HomeAssistantManager) (entity_id action_name action : String) :
    HomeAssistantManager :=
  { s with actions := dictSet s.actions (entity_id ++ ":" ++ action_name) action }

/-- `HomeAssistantManager.get_action`. -/
def get_action (s : HomeAssistantManager) (entity_id action_name : String) :
    Option String :=
  lookupD s.actions (entity_id ++ ":" ++ action_name)

end HomeAssistantManager

/-- C6: `async_update_entry` without a config entry appends to the manager's
track-time handler list exactly one update-cycle subscription at the scan
interval, followed by a heartbeat subscription precisely when a heartbeat
interval was supplied at construction. -/
theorem async_update_entry_handlers (s : HomeAssistantManager) :
    (HomeAssistantManager.async_update_entry s none).track_time_handlers
      = s.track_time_handlers ++
        TrackHandler.update s.scan_interval ::
          (match s.heartbeat_interval with
           | some hb => [TrackHandler.heartbeat hb]
           | none => []) := by
  cases hb : s.heartbeat_interval <;>
    simp [HomeAssistantManager.async_update_entry, hb]

/-- C7: while `_is_initialized` is false, `async_update` performs no calls
(in particular neither `async_update_data_providers` nor `update`) and
leaves the whole manager state — entity mapping and update flags included —
unchanged. -/
theorem async_update_not_initialized_frame (s : HomeAssistantManager)
    (h : s.is_initialized = false) :
    HomeAssistantManager.async_update s = (s, []) := by
  simp [HomeAssistantManager.async_update, h]

/-- Witness for `async_update_not_initialized_frame` at a concrete state. -/
theorem async_update_not_initialized_frame_witness :
    HomeAssistantManager.async_update
        { is_initialized := false, is_updating := false, update_lock := false,
          scan_interval := 30, heartbeat_interval := some 50,
          track_time_handlers := [], actions := [], entry := none,
          entities := [("mon1", { entry_id := "e", entity_description := ⟨"mon1", "M"⟩ })] }
      = ({ is_initialized := false, is_updating := false, update_lock := false,
           scan_interval := 30, heartbeat_interval := some 50,
           track_time_handlers := [], actions := [], entry := none,
           entities := [("mon1", { entry_id := "e", entity_description := ⟨"mon1", "M"⟩ })] },
         []) := by
  exact async_update_not_initialized_frame
    { is_initialized := false, is_updating := false, update_lock := false,
      scan_interval := 30, heartbeat_interval := some 50,
      track_time_handlers := [], actions := [], entry := none,
      entities := [("mon1", { entry_id := "e", entity_description := ⟨"mon1", "M"⟩ })] }
    rfl

/-- C10: `get_action` after `set_action` returns the stored action, and a
`set_action` whose composed `entity_id:action_name` key differs leaves the
result of `get_action` for the other pair untouched. -/
theorem set_action_get_action (s : HomeAssistantManager)
    (entity_id action_name action : String) :
    HomeAssistantManager.get_action
        (HomeAssistantManager.set_action s entity_id action_name action)
        entity_id action_name = some action ∧
    (∀ entity_id' action_name',
      entity_id' ++ ":" ++ action_name' ≠ entity_id ++ ":" ++ action_name →
      HomeAssistantManager.get_action
          (HomeAssistantManager.set_action s entity_id action_name action)
          entity_id' action_name'
        = HomeAssistantManager.get_action s entity_id' action_name') := by
  constructor
  · simp [HomeAssistantManager.get_action, HomeAssistantManager.set_action,
      lookupD_dictSet_self]
  · intro entity_id' action_name' hne
    simp [HomeAssistantManager.get_action, HomeAssistantManager.set_action,
      lookupD_dictSet_ne _ _ _ _ hne]

/-- Witness for `set_action_get_action` at concrete ids. -/
theorem set_action_get_action_witness :
    HomeAssistantManager.get_action
        (HomeAssistantManager.set_action
          { scan_interval := 30, actions := [("cam.one:turn_off", "off_handler")] }
          "cam.one" "turn_on" "on_handler")
        "cam.one" "turn_on" = some "on_handler" ∧
    HomeAssistantManager.get_action
        (HomeAssistantManager.set_action
          { scan_interval := 30, actions := [("cam.one:turn_off", "off_handler")] }
          "cam.one" "turn_on" "on_handler")
        "cam.one" "turn_off" = some "off_handler" := by
  refine ⟨(set_action_get_action
      { scan_interval := 30, actions := [("cam.one:turn_off", "off_handler")] }
      "cam.one" "turn_on" "on_handler").1, ?_⟩
  have h := (set_action_get_action
      { scan_interval := 30, actions := [("cam.one:turn_off", "off_handler")] }
      "cam.one" "turn_on" "on_handler").2 "cam.one" "turn_off" (by decide)
  rw [h]
  decide

/-- A host entity-registry entry; `disabled` mirrors the host's
`RegistryEntry.disabled` (derived from `disabled_by`). -/
structure RegistryEntry where
  disabled : Bool := false
  disabled_by_integration : Bool := false
deriving DecidableEq, Repr

/-- The host entity registry as the manager uses it: the unique-id index
(`async_get_entity_id(domain, platform, unique_id)`) and the entries keyed
by entity id. -/
structure EntityRegistry where
  getEntityId : String → String → String → Option String
  entries : List (String × RegistryEntry)

/-- `EntityRegistry.async_get(entity_id)`; a `None` entity id finds no
entry. -/
def EntityRegistry.async_get (reg : EntityRegistry) :
    Option String → Option RegistryEntry
  | none => none
  | some eid => lookupD reg.entries eid

/-- `async_update_entity(entity_id, disabled_by=RegistryEntryDisabler.INTEGRATION)`:
marks the entry disabled by the integration. -/
def EntityRegistry.disable_by_integration (reg : EntityRegistry) :
    Option String → EntityRegistry
  | none => reg
  | some eid =>
      match lookupD reg.entries eid with
      | none => reg
      | some en =>
          let en1 := { en with disabled := true, disabled_by_integration := true }
          { reg with entries := dictSet reg.entries eid en1 }

/-- `EntityRegistry.async_remove(entity_id)`. -/
def EntityRegistry.async_remove (reg : EntityRegistry) (eid : String) :
    EntityRegistry :=
  { reg with entries := dictDel reg.entries eid }

/-- A platform entity object built by a domain initializer; only the fields
the manager touches. -/
structure Component where
  entity_id : Option String := none
  name : String := ""
deriving DecidableEq, Repr

/-- Modelled from the spec: per-domain data handed to the entity manager
(`core/models/domain_data.py` is not under `src/`): the domain's name, its
component initializer, and the host `async_add_entities` callback; the two
callbacks may raise, modelled as `Except`. -/
structure DomainData where
  name : String
  initializer : EntityData → Except String Component
  async_add_devices : List Component → Except String Unit

namespace EntityManager

/-- `domain_component_manager`: domain name → `DomainData`. -/
abbrev Domains : Type := List (String × DomainData)

/-- The per-domain component accumulator built by the add phase. -/
abbrev Components : Type := List (String × List Component)

/-- `EntityManager._handle_disabled_entity`: when the registry has an entry
for the entity id, either propagate a locally disabled entity into the
registry, or copy the registry's disabled flag onto the record. -/
def handle_disabled_entity (reg : EntityRegistry) (entity_id : Option String)
    (entity : EntityData) : EntityData × EntityRegistry :=
  match reg.async_get entity_id with
  | none => (entity, reg)
  | some item =>
      if entity.disabled then (entity, reg.disable_by_integration entity_id)
      else ({ entity with disabled := item.disabled }, reg)

/-- `EntityManager._handle_restored_entity`: records the entity id on the
component (the restored-state lookup only produces log text). -/
def handle_restored_entity (entity_id : Option String) (component : Component) :
    Component :=
  match entity_id with
  | none => component
  | some eid => { component with entity_id := some eid }

/-- Result of the add-phase loop over the entities mapping: the mapping and
registry after the processed prefix, the accumulated per-domain components,
and the exception that aborted the loop, if any. -/
structure AddLoopResult where
  entities : Entities
  registry : EntityRegistry
  components : Components
  err : Option String

/-- The `for unique_id in self.entities` loop of
`EntityManager._async_add_components`: each CREATED record is run through
the disabled/restored handling, handed to its domain's initializer, its
component appended to its domain's list, and its status set to READY; a
missing domain manager (`None.initializer`) or a raising initializer aborts
the loop with the already-processed prefix kept. Only record values are
mutated, so the dict iteration itself is safe. -/
def addLoop (domains : Domains) :
    Entities → EntityRegistry → Components → AddLoopResult
  | [], reg, comps => ⟨[], reg, comps, none⟩
  | (k, e) :: rest, reg, comps =>
      if e.status = EntityStatus.created then
        let entity_id := reg.getEntityId e.domain DOMAIN k
        let p := handle_disabled_entity reg entity_id e
        match lookupD domains p.1.domain with
        | none =>
            ⟨(k, p.1) :: rest, p.2, comps,
             some "AttributeError: NoneType object has no attribute"⟩
        | some dm =>
            match dm.initializer p.1 with
            | Except.error msg => ⟨(k, p.1) :: rest, p.2, comps, some msg⟩
            | Except.ok c0 =>
                let c := handle_restored_entity entity_id c0
                let comps1 := dictSet comps p.1.domain
                  (((lookupD comps p.1.domain).getD []) ++ [c])
                let r := addLoop domains rest p.2 comps1
                ⟨(k, { p.1 with status := EntityStatus.ready }) :: r.entities,
                 r.registry, r.components, r.err⟩
      else
        let r := addLoop domains rest reg comps
        ⟨(k, e) :: r.entities, r.registry, r.components, r.err⟩

/-- The second loop of `_async_add_components`: for each domain with a
non-empty component list, hand the list to the host `async_add_devices`;
the first raising callback aborts the loop. -/
def addDevicesLoop (comps : Components) : List (String × DomainData) → Option String
  | [] => none
  | (d, dm) :: rest =>
      let dcs := (lookupD comps d).getD []
      if 0 < dcs.length then
        match dm.async_add_devices dcs with
        | Except.error msg => some msg
        | Except.ok _ => addDevicesLoop comps rest
      else addDevicesLoop comps rest

/-- Body of `EntityManager._async_add_components` without its `try/except`:
runs both loops; the third component is the exception escaping the body,
if any. -/
def add_components_body (domains : Domains) (m : Entities) (reg : EntityRegistry) :
    Entities × EntityRegistry × Option String :=
  let r := addLoop domains m reg []
  match r.err with
  | some msg => (r.entities, r.registry, some msg)
  | none => (r.entities, r.registry, addDevicesLoop r.components domains)

/-- `EntityManager._async_add_components`: the body wrapped in
`try/except Exception`, which logs and swallows any exception — the third
component (the escaping exception) is always `none`. -/
def async_add_components (domains : Domains) (m : Entities) (reg : EntityRegistry) :
    Entities × EntityRegistry × Option String :=
  let b := add_components_body domains m reg
  (b.1, b.2.1, none)

/-- The `for unique_id in self.entities` loop of
`EntityManager._async_delete_components`, iterating over the snapshot of
keys: a DELETED record is removed from the registry (when registered) and
from the mapping via `del self.entities[entity.id]` — after which CPython's
dict iterator raises `RuntimeError: dictionary changed size during
iteration` at the next step, aborting the loop; `del` with a key absent
from the mapping raises `KeyError`. -/
def deleteIter (reg : EntityRegistry) (m : Entities) :
    List String → Entities × EntityRegistry × Option String
  | [] => (m, reg, none)
  | k :: ks =>
      match lookupD m k with
      | none => (m, reg, some "KeyError")
      | some e =>
          if e.status = EntityStatus.deleted then
            let entity_id := reg.getEntityId e.domain DOMAIN k
            let reg1 :=
              match reg.async_get entity_id with
              | some _ =>
                  match entity_id with
                  | some eid => reg.async_remove eid
                  | none => reg
              | none => reg
            if (lookupD m e.id).isSome then
              (dictDel m e.id, reg1,
               some "RuntimeError: dictionary changed size during iteration")
            else (m, reg1, some "KeyError")
          else deleteIter reg m ks

/-- `EntityManager._async_delete_components` (no `try/except` of its own):
the third component is the exception escaping it, if any. -/
def async_delete_components (m : Entities) (reg : EntityRegistry) :
    Entities × EntityRegistry × Option String :=
  deleteIter reg m (m.map Prod.fst)

/-- Body of `EntityManager._async_update` without its `try/except`: the add
phase (which cannot raise), then the delete phase (which can). -/
def update_body (domains : Domains) (m : Entities) (reg : EntityRegistry) :
    Entities × EntityRegistry × Option String :=
  let a := async_add_components domains m reg
  match a.2.2 with
  | some msg => (a.1, a.2.1, some msg)
  | none => async_delete_components a.1 a.2.1

/-- `EntityManager._async_update`: the body wrapped in
`try/except Exception`, which logs and swallows any exception — the third
component (the escaping exception) is always `none`. -/
def async_update (domains : Domains) (m : Entities) (reg : EntityRegistry) :
    Entities × EntityRegistry × Option String :=
  let b := update_body domains m reg
  (b.1, b.2.1, none)

end EntityManager

/-- A registry with no unique-id index hits and no entries. -/
def emptyRegistry : EntityRegistry where
  getEntityId := fun _ _ _ => none
  entries := []

/-- C2 evaluated at the failing input: with two DELETED records, the delete
phase removes only the first; the `del` during dict iteration raises
`RuntimeError` at the next step, so the second record survives with status
DELETED. -/
theorem async_delete_components_incomplete_cex :
    (EntityManager.async_delete_components
        [("m1", { entry_id := "e1", entity_description := ⟨"m1", "M1"⟩,
                  status := EntityStatus.deleted, domain := "camera" }),
         ("m2", { entry_id := "e2", entity_description := ⟨"m2", "M2"⟩,
                  status := EntityStatus.deleted, domain := "camera" })]
        emptyRegistry).1
      = [("m2", { entry_id := "e2", entity_description := ⟨"m2", "M2"⟩,
                  status := EntityStatus.deleted, domain := "camera" })] ∧
    (EntityManager.async_delete_components
        [("m1", { entry_id := "e1", entity_description := ⟨"m1", "M1"⟩,
                  status := EntityStatus.deleted, domain := "camera" }),
         ("m2", { entry_id := "e2", entity_description := ⟨"m2", "M2"⟩,
                  status := EntityStatus.deleted, domain := "camera" })]
        emptyRegistry).2.2
      = some "RuntimeError: dictionary changed size during iteration" := by
  exact ⟨rfl, rfl⟩

/-- C3: the reconciliation pass never lets an exception escape —
`_async_add_components` wraps its whole body in `try/except Exception` and
`_async_update` wraps the add and delete phases likewise, so both always
return normally (escaping-exception component `none`). -/
theorem reconciliation_swallows_exceptions (domains : EntityManager.Domains)
    (m : EntityManager.Entities) (reg : EntityRegistry) :
    (EntityManager.async_add_components domains m reg).2.2 = none ∧
    (EntityManager.async_update domains m reg).2.2 = none := by
  exact ⟨rfl, rfl⟩

/-- `_handle_disabled_entity` only ever touches the record's `disabled`
flag: status and domain are preserved. -/
theorem handle_disabled_entity_fields (reg : EntityRegistry) (eid : Option String)
    (e : EntityData) :
    (EntityManager.handle_disabled_entity reg eid e).1.status = e.status ∧
    (EntityManager.handle_disabled_entity reg eid e).1.domain = e.domain := by
  unfold EntityManager.handle_disabled_entity
  cases reg.async_get eid with
  | none => exact ⟨rfl, rfl⟩
  | some item => by_cases h : e.disabled <;> simp [h]

/-- Number of records in the mapping that are CREATED and belong to the
given domain. -/
def countCreatedInDomain (m : EntityManager.Entities) (d : String) : Nat :=
  m.countP (fun kv => decide (kv.2.status = EntityStatus.created ∧ kv.2.domain = d))

/-- Length of the component list accumulated for a domain. -/
def componentCount (comps : EntityManager.Components) (d : String) : Nat :=
  ((lookupD comps d).getD []).length

/-- Appending one component to a domain's list bumps that domain's count by
one and leaves the others unchanged. -/
theorem componentCount_append (comps : EntityManager.Components) (d' d : String)
    (c : Component) :
    componentCount (dictSet comps d' (((lookupD comps d').getD []) ++ [c])) d
      = componentCount comps d + (if d' = d then 1 else 0) := by
  by_cases h : d' = d
  · subst h
    simp [componentCount, lookupD_dictSet_self]
  · simp [componentCount, lookupD_dictSet_ne _ _ _ _ (Ne.symm h), h]

/-- Add-phase loop, per-record effect: under a run with no exception, every
CREATED record ends READY and every other record is returned untouched. -/
theorem addLoop_status (domains : EntityManager.Domains) (m : EntityManager.Entities) :
    ∀ (reg : EntityRegistry) (comps : EntityManager.Components) (k : String) (e : EntityData),
      lookupD m k = some e →
      (EntityManager.addLoop domains m reg comps).err = none →
      ∃ e', lookupD (EntityManager.addLoop domains m reg comps).entities k = some e' ∧
        (e.status = EntityStatus.created → e'.status = EntityStatus.ready) ∧
        (e.status ≠ EntityStatus.created → e' = e) := by
  induction m with
  | nil =>
      intro reg comps k e h _
      simp [lookupD] at h
  | cons kv rest ih =>
      obtain ⟨k0, e0⟩ := kv
      intro reg comps k e h herr
      by_cases hst : e0.status = EntityStatus.created
      · rcases hdom : lookupD domains
            (EntityManager.handle_disabled_entity reg
              (reg.getEntityId e0.domain DOMAIN k0) e0).1.domain with _ | dm
        · simp [EntityManager.addLoop, hst, hdom] at herr
        · rcases hinit : dm.initializer
              (EntityManager.handle_disabled_entity reg
                (reg.getEntityId e0.domain DOMAIN k0) e0).1 with msg | c0
          · simp [EntityManager.addLoop, hst, hdom, hinit] at herr
          · simp only [EntityManager.addLoop, hst, hdom, hinit, if_true] at herr ⊢
            by_cases hk : k0 = k
            · subst hk
              have he : e = e0 := by
                simp [lookupD] at h
                exact h.symm
              subst he
              refine ⟨{ (EntityManager.handle_disabled_entity reg
                          (reg.getEntityId e.domain DOMAIN k0) e).1 with
                        status := EntityStatus.ready }, ?_, ?_, ?_⟩
              · simp [lookupD]
              · intro _
                rfl
              · intro hne
                exact absurd hst hne
            · have h' : lookupD rest k = some e := by
                simpa [lookupD, hk] using h
              obtain ⟨e', h1, h2, h3⟩ := ih _ _ k e h' herr
              refine ⟨e', ?_, h2, h3⟩
              simpa [lookupD, hk] using h1
      · simp only [EntityManager.addLoop, hst, if_false] at herr ⊢
        by_cases hk : k0 = k
        · subst hk
          have he : e = e0 := by
            simp [lookupD] at h
            exact h.symm
          subst he
          refine ⟨e, ?_, ?_, ?_⟩
          · simp [lookupD]
          · intro hc
            exact absurd hc hst
          · intro _
            rfl
        · have h' : lookupD rest k = some e := by
            simpa [lookupD, hk] using h
          obtain ⟨e', h1, h2, h3⟩ := ih _ _ k e h' herr
          refine ⟨e', ?_, h2, h3⟩
          simpa [lookupD, hk] using h1

/-- Add-phase loop, component accounting: under a run with no exception,
each domain's accumulated component list grows by exactly one entry per
CREATED record of that domain. -/
theorem addLoop_count (domains : EntityManager.Domains) (d : String)
    (m : EntityManager.Entities) :
    ∀ (reg : EntityRegistry) (comps : EntityManager.Components),
      (EntityManager.addLoop domains m reg comps).err = none →
      componentCount (EntityManager.addLoop domains m reg comps).components d
        = componentCount comps d + countCreatedInDomain m d := by
  induction m with
  | nil =>
      intro reg comps _
      simp [EntityManager.addLoop, countCreatedInDomain]
  | cons kv rest ih =>
      obtain ⟨k0, e0⟩ := kv
      intro reg comps herr
      by_cases hst : e0.status = EntityStatus.created
      · rcases hdom : lookupD domains
            (EntityManager.handle_disabled_entity reg
              (reg.getEntityId e0.domain DOMAIN k0) e0).1.domain with _ | dm
        · simp [EntityManager.addLoop, hst, hdom] at herr
        · rcases hinit : dm.initializer
              (EntityManager.handle_disabled_entity reg
                (reg.getEntityId e0.domain DOMAIN k0) e0).1 with msg | c0
          · simp [EntityManager.addLoop, hst, hdom, hinit] at herr
          · simp only [EntityManager.addLoop, hst, hdom, hinit, if_true] at herr ⊢
            rw [ih _ _ herr]
            rw [componentCount_append]
            have hdm : (EntityManager.handle_disabled_entity reg
                (reg.getEntityId e0.domain DOMAIN k0) e0).1.domain = e0.domain :=
              (handle_disabled_entity_fields _ _ _).2
            rw [hdm]
            simp only [countCreatedInDomain, List.countP_cons, hst]
            by_cases hd : e0.domain = d
            · simp [hd]
              omega
            · simp [hd]
      · simp only [EntityManager.addLoop, hst, if_false] at herr ⊢
        rw [ih _ _ herr]
        simp [countCreatedInDomain, List.countP_cons, hst]

/-- C4: in an add phase that hits no exception, every CREATED record is
handed to its domain's initializer (each domain's component list gains
exactly one component per CREATED record of that domain) and ends with
status READY, while records whose status is not CREATED are returned
untouched. -/
theorem async_add_components_spec (domains : EntityManager.Domains)
    (m : EntityManager.Entities) (reg : EntityRegistry)
    (herr : (EntityManager.addLoop domains m reg []).err = none) :
    (∀ k e, lookupD m k = some e →
      ∃ e', lookupD (EntityManager.async_add_components domains m reg).1 k = some e' ∧
        (e.status = EntityStatus.created → e'.status = EntityStatus.ready) ∧
        (e.status ≠ EntityStatus.created → e' = e)) ∧
    (∀ d, componentCount (EntityManager.addLoop domains m reg []).components d
        = countCreatedInDomain m d) := by
  have h1 : (EntityManager.async_add_components domains m reg).1
      = (EntityManager.addLoop domains m reg []).entities := by
    cases hE : (EntityManager.addLoop domains m reg []).err <;>
      simp [EntityManager.async_add_components, EntityManager.add_components_body, hE]
  constructor
  · intro k e h
    rw [h1]
    exact addLoop_status domains m reg [] k e h herr
  · intro d
    have hc := addLoop_count domains d m reg [] herr
    simpa [componentCount, lookupD] using hc

/-- Witness for `async_add_components_spec`: one CREATED camera record is
set READY and yields exactly one camera component; a READY record is left
untouched. -/
theorem async_add_components_spec_witness :
    (∃ e', lookupD (EntityManager.async_add_components
        [("camera", ⟨"camera", fun _ => Except.ok {}, fun _ => Except.ok ()⟩)]
        [("m1", { entry_id := "e1", entity_description := ⟨"m1", "M1"⟩,
                  status := EntityStatus.created, domain := "camera" }),
         ("m2", { entry_id := "e2", entity_description := ⟨"m2", "M2"⟩,
                  status := EntityStatus.ready, domain := "camera" })]
        emptyRegistry).1 "m1" = some e' ∧ e'.status = EntityStatus.ready) ∧
    componentCount (EntityManager.addLoop
        [("camera", ⟨"camera", fun _ => Except.ok {}, fun _ => Except.ok ()⟩)]
        [("m1", { entry_id := "e1", entity_description := ⟨"m1", "M1"⟩,
                  status := EntityStatus.created, domain := "camera" }),
         ("m2", { entry_id := "e2", entity_description := ⟨"m2", "M2"⟩,
                  status := EntityStatus.ready, domain := "camera" })]
        emptyRegistry []).components "camera" = 1 := by
  have hs := async_add_components_spec
    [("camera", ⟨"camera", fun _ => Except.ok {}, fun _ => Except.ok ()⟩)]
    [("m1", { entry_id := "e1", entity_description := ⟨"m1", "M1"⟩,
              status := EntityStatus.created, domain := "camera" }),
     ("m2", { entry_id := "e2", entity_description := ⟨"m2", "M2"⟩,
              status := EntityStatus.ready, domain := "camera" })]
    emptyRegistry rfl
  constructor
  · obtain ⟨e', h1, h2, _⟩ := hs.1 "m1"
      { entry_id := "e1", entity_description := ⟨"m1", "M1"⟩,
        status := EntityStatus.created, domain := "camera" } rfl
    exact ⟨e', h1, h2 rfl⟩
  · rw [hs.2 "camera"]
    rfl
